import Mathlib

/-! NXT ultrasonic radar driver and text display.

A shallow embedding of `nxos/drivers/radar.c` and `nxtos/display.c`.

* Machine integers are natural numbers; `U8` arithmetic is reduced modulo 256
  and `U32` arithmetic modulo `2 ^ 32` where the C code can wrap.
* A C string is the list of its characters before the terminating NUL.
* The collaborators that are only declared in headers (bus transport, host
  link) are the fields of `Env`, a deterministic machine over a state `σ`.
* The two busy-wait loops take a fuel argument; `none` means that the fuel
  ran out before the polled flag dropped.
-/

namespace Nxos

/-! ## display.c -/

/-- Constants of `lcd.h` and `font.h`, which are not part of the sources. -/
structure LcdConsts where
  LCD_WIDTH : Nat
  LCD_HEIGHT : Nat
  CELL_WIDTH : Nat
  FONT_START : Nat
deriving DecidableEq, Repr

/-- The text cursor `display.cursor`; `x` and `y` are `U8`. -/
structure Cursor where
  x : Nat
  y : Nat
  ignore_lf : Bool
deriving DecidableEq, Repr

/-- The static `display` object. The raster `buffer` is kept as the list of
glyph copies made since the last clear, each `(row, column, glyph index)`,
because the font table is not in the sources. -/
structure Display where
  buffer : List (Nat × Nat × Nat)
  cursor : Cursor
deriving DecidableEq, Repr

/-- The display with a record of what was printed: `log` holds the
arguments of all `display_string` calls so far, oldest first. The log is
instrumentation, not a part of the program state. -/
structure Console where
  display : Display
  log : List (List Char)
deriving DecidableEq, Repr

/-- `display_clear`: the `memset` of the raster buffer. -/
def display_clear (d : Display) : Display :=
  { d with buffer := [] }

/-- `is_on_screen(x, y)`: the body tests the cursor, not its arguments. -/
def is_on_screen (k : LcdConsts) (d : Display) (_x _y : Nat) : Bool :=
  if d.cursor.x < k.LCD_WIDTH ∧ d.cursor.y < k.LCD_HEIGHT then true else false

/-- `char_to_font`, as the index of the glyph in the font table. -/
def char_to_font (k : LcdConsts) (c : Char) : Nat :=
  if c.toNat ≥ k.FONT_START then c.toNat - k.FONT_START else 0

/-- `update_cursor(inc_y)`. -/
def update_cursor (k : LcdConsts) (inc_y : Bool) (c : Cursor) : Cursor :=
  let c1 : Cursor :=
    if !inc_y then
      let x1 := (c.x + 1) % 256
      if x1 ≥ k.LCD_WIDTH then
        { x := 0, y := (c.y + 1) % 256, ignore_lf := true }
      else
        { x := x1, y := c.y, ignore_lf := false }
    else if c.ignore_lf then
      { c with ignore_lf := false }
    else
      { c with x := 0, y := (c.y + 1) % 256 }
  if c1.y ≥ k.LCD_HEIGHT then { c1 with y := 0 } else c1

/-- `display_cursor_set_pos(x, y)`. -/
def display_cursor_set_pos (k : LcdConsts) (x y : Nat) (d : Display) : Display :=
  if is_on_screen k d x y then
    { d with cursor := { d.cursor with x := x % 256, y := y % 256 } }
  else d

/-- The `while (*str != 0)` loop of `display_string`. -/
def display_chars (k : LcdConsts) : List Char → Display → Display
  | [], d => d
  | c :: cs, d =>
    if c = '\n' then
      display_chars k cs { d with cursor := update_cursor k true d.cursor }
    else
      display_chars k cs
        { d with
          buffer := d.buffer ++
            [(d.cursor.y, d.cursor.x * k.CELL_WIDTH, char_to_font k c)]
          cursor := update_cursor k false d.cursor }

/-- `display_string(str)`. -/
def display_string (k : LcdConsts) (str : List Char) (c : Console) : Console :=
  { display := display_chars k str c.display, log := c.log ++ [str] }

/-- The C string that starts at the beginning of a region of memory. -/
def c_str (mem : List Char) : List Char :=
  mem.takeWhile (fun c => c != '\x00')

/-- The digit loop of `display_uint`, on the pointer `ptr` (an index into
`buf`, which may run below zero) and the buffer. A store through a pointer
below `buf` is outside the array and is not tracked. -/
def display_uint_loop (val : Nat) (ptr : Int) (buf : List Char) : Int × List Char :=
  if h : val > 0 then
    let ptr1 := ptr - 1
    let buf1 := if 0 ≤ ptr1 then buf.set ptr1.toNat (Char.ofNat (val % 10 + 48)) else buf
    display_uint_loop (val / 10) ptr1 buf1
  else
    (ptr, buf)
termination_by val
decreasing_by exact Nat.div_lt_self h (by decide)

/-- The string that `display_uint(val)` hands to `display_string`. The
uninitialised `buf[11]` starts as NULs. -/
def display_uint_str (val : Nat) : List Char :=
  let r := display_uint_loop (val % 2 ^ 32) 10 (List.replicate 11 '\x00')
  let buf := r.2.set 10 '\x00'
  c_str (buf.drop r.1.toNat)

/-- `display_uint(val)`. -/
def display_uint (k : LcdConsts) (val : Nat) (c : Console) : Console :=
  display_string k (display_uint_str val) c

/-- The table `hex[16]` of `display_hex`. -/
def hex : List Char := "0123456789ABCDEF".toList

/-- The digit loop of `display_hex`. -/
def display_hex_loop (val : Nat) (ptr : Int) (buf : List Char) : Int × List Char :=
  if h : val > 0 then
    let ptr1 := ptr - 1
    let buf1 := if 0 ≤ ptr1 then buf.set ptr1.toNat (hex.getD (val % 16) '\x00') else buf
    display_hex_loop (val / 16) ptr1 buf1
  else
    (ptr, buf)
termination_by val
decreasing_by exact Nat.div_lt_self h (by decide)

/-- The string that `display_hex(val)` hands to `display_string`. -/
def display_hex_str (val : Nat) : List Char :=
  let r := display_hex_loop (val % 2 ^ 32) 8 (List.replicate 9 '\x00')
  let buf := r.2.set 8 '\x00'
  c_str (buf.drop r.1.toNat)

/-- `display_hex(val)`. -/
def display_hex (k : LcdConsts) (val : Nat) (c : Console) : Console :=
  display_string k (display_hex_str val) c

/-- `display_init`. -/
def display_init (d : Display) : Display :=
  { display_clear d with cursor := { x := 0, y := 0, ignore_lf := false } }

/-- The decimal digits of `v`, most significant first, as characters; the
empty string for 0. -/
def digit_chars (v : Nat) : List Char :=
  (Nat.digits 10 v).reverse.map fun n => Char.ofNat (n + 48)

/-- The cursor is inside the screen. -/
def cursor_on_screen (k : LcdConsts) (d : Display) : Prop :=
  d.cursor.x < k.LCD_WIDTH ∧ d.cursor.y < k.LCD_HEIGHT

instance (k : LcdConsts) (d : Display) : Decidable (cursor_on_screen k d) := by
  unfold cursor_on_screen; infer_instance

/-! ## radar.c -/

/-- `radar_commands`: the radar's internal memory addresses. -/
inductive radar_commands where
  | RADAR_VERSION
  | RADAR_PRODUCT_ID
  | RADAR_SENSOR_TYPE
  | RADAR_FACTORY_ZERO
  | RADAR_FACTORY_SCALE_FACTOR
  | RADAR_FACTORY_SCALE_DIVISOR
  | RADAR_MEASUREMENT_UNITS
  | RADAR_INTERVAL
  | RADAR_OP_MODE
  | RADAR_R0
  | RADAR_R1
  | RADAR_R2
  | RADAR_R3
  | RADAR_R4
  | RADAR_R5
  | RADAR_R6
  | RADAR_R7
  | RADAR_CURRENT_ZERO
  | RADAR_CURRENT_SCALE_FACTOR
  | RADAR_CURRENT_SCALE_DIVISOR
deriving DecidableEq, Repr

/-- The value of each enumerator of `radar_commands`. -/
def radar_commands.val : radar_commands → Nat
  | .RADAR_VERSION => 0x00
  | .RADAR_PRODUCT_ID => 0x08
  | .RADAR_SENSOR_TYPE => 0x10
  | .RADAR_FACTORY_ZERO => 0x11
  | .RADAR_FACTORY_SCALE_FACTOR => 0x12
  | .RADAR_FACTORY_SCALE_DIVISOR => 0x13
  | .RADAR_MEASUREMENT_UNITS => 0x14
  | .RADAR_INTERVAL => 0x40
  | .RADAR_OP_MODE => 0x41
  | .RADAR_R0 => 0x42
  | .RADAR_R1 => 0x43
  | .RADAR_R2 => 0x44
  | .RADAR_R3 => 0x45
  | .RADAR_R4 => 0x46
  | .RADAR_R5 => 0x47
  | .RADAR_R6 => 0x48
  | .RADAR_R7 => 0x49
  | .RADAR_CURRENT_ZERO => 0x4A
  | .RADAR_CURRENT_SCALE_FACTOR => 0x4B
  | .RADAR_CURRENT_SCALE_DIVISOR => 0x4C

/-- The four blocks of the register map. -/
inductive RegisterBlock where
  | identification
  | factory_calibration
  | live_operation
  | current_calibration
deriving DecidableEq, Repr

/-- Modelled from the spec: the grouping of the register addresses into
blocks, which the enum itself does not name. Identification holds version
and product id, factory calibration runs from sensor type to measurement
units, live operation from the sample interval to R7, and current
calibration is the last three addresses. -/
def radar_commands.block : radar_commands → RegisterBlock
  | .RADAR_VERSION => .identification
  | .RADAR_PRODUCT_ID => .identification
  | .RADAR_SENSOR_TYPE => .factory_calibration
  | .RADAR_FACTORY_ZERO => .factory_calibration
  | .RADAR_FACTORY_SCALE_FACTOR => .factory_calibration
  | .RADAR_FACTORY_SCALE_DIVISOR => .factory_calibration
  | .RADAR_MEASUREMENT_UNITS => .factory_calibration
  | .RADAR_CURRENT_ZERO => .current_calibration
  | .RADAR_CURRENT_SCALE_FACTOR => .current_calibration
  | .RADAR_CURRENT_SCALE_DIVISOR => .current_calibration
  | _ => .live_operation

/-- `i2c_txn_mode`, with the two enumerators the driver names. -/
inductive i2c_txn_mode where
  | TXN_MODE_WRITE
  | TXN_MODE_READ
deriving DecidableEq, Repr

/-- One call of the bus transport together with the value it returned. -/
inductive I2cCall where
  | start (sensor : Nat) (data : List Nat) (size : Nat) (mode : i2c_txn_mode)
      (restart : Bool) (err : Nat)
  | busy (sensor : Nat) (result : Bool)
  | status (sensor : Nat) (result : Nat)
deriving DecidableEq, Repr

/-- The collaborators declared in `i2c.h` and `usb.h`, as a deterministic
machine over the hardware state `σ`. `i2c_rx s` is the sequence of bytes
that the transport has stored into the buffer of the current transaction
when the hardware is in state `s`. -/
structure Env (σ : Type) where
  I2C_ERR_OK : Nat
  TXN_STAT_SUCCESS : Nat
  i2c_start_transaction : σ → Nat → List Nat → Nat → i2c_txn_mode → Bool → Nat × σ
  i2c_busy : σ → Nat → Bool × σ
  i2c_get_txn_status : σ → Nat → Nat × σ
  i2c_rx : σ → List Nat
  usb_send : σ → List Nat → Nat → σ
  usb_can_send : σ → Bool × σ

/-- Everything the driver reads or changes: the hardware state, the calls
made to the bus transport, the display, the calls made to
`sound_freq_async` and `usb_send`, and the capture globals `offset`,
`dump` and `record`. -/
structure World (σ : Type) where
  hw : σ
  i2c : List I2cCall
  display : Console
  sound : List (Int × Nat)
  usb : List (List Nat × Nat)
  offset : Nat
  dump : List Nat
  record : Bool

/-- A loop `while (poll());` with an empty body: `step` runs the poll once
and gives its value. -/
def spin {α : Type} (step : α → Bool × α) : Nat → α → Option α
  | 0, _ => none
  | fuel + 1, a =>
    let r := step a
    if r.1 then spin step fuel r.2 else some r.2

/-- The contents of a buffer of the caller after the transport stored the
bytes `rx` from its start, for a transaction of `size` bytes. -/
def store (size : Nat) (rx : List Nat) (buf : List Nat) : List Nat :=
  let r := ((rx.take size).take buf.length).map (fun b => b % 256)
  r ++ buf.drop r.length

/-- One call of `i2c_busy(sensor)`. -/
def i2c_busy_call {σ : Type} (env : Env σ) (sensor : Nat) (w : World σ) :
    Bool × World σ :=
  let r := env.i2c_busy w.hw sensor
  (r.1, { w with hw := r.2, i2c := w.i2c ++ [I2cCall.busy sensor r.1] })

/-- The two characters that `radar_txn` prints for the direction. -/
def dir_str (mode : i2c_txn_mode) : List Char :=
  if mode = i2c_txn_mode.TXN_MODE_WRITE then "> ".toList else "< ".toList

/-- `radar_txn(sensor, data, size, mode, restart)`. The result is the world
after the call and the contents of `data`. -/
def radar_txn {σ : Type} (env : Env σ) (k : LcdConsts) (fuel : Nat) (sensor : Nat)
    (data : List Nat) (size : Nat) (mode : i2c_txn_mode) (restart : Bool)
    (w : World σ) : Option (World σ × List Nat) :=
  let r := env.i2c_start_transaction w.hw sensor data size mode restart
  let err := r.1
  let w1 : World σ :=
    { w with hw := r.2
             i2c := w.i2c ++ [I2cCall.start sensor data size mode restart err] }
  if err ≠ env.I2C_ERR_OK then
    let d1 := display_string k (dir_str mode) w1.display
    let d2 := display_string k "TXN error (".toList d1
    let d3 := display_uint k err d2
    let d4 := display_string k ") !\n".toList d3
    some ({ w1 with display := d4 }, store size (env.i2c_rx w1.hw) data)
  else
    match spin (i2c_busy_call env sensor) fuel w1 with
    | none => none
    | some w2 =>
      let q := env.i2c_get_txn_status w2.hw sensor
      let status := q.1
      let w3 : World σ :=
        { w2 with hw := q.2, i2c := w2.i2c ++ [I2cCall.status sensor status] }
      if status ≠ env.TXN_STAT_SUCCESS then
        let d1 := display_string k (dir_str mode) w3.display
        let d2 := display_string k "DATA error (".toList d1
        let d3 := display_uint k status d2
        let d4 := display_string k ")\n".toList d3
        some ({ w3 with display := d4 }, store size (env.i2c_rx w3.hw) data)
      else
        some (w3, store size (env.i2c_rx w3.hw) data)

/-- The four bytes of a `U32` in memory (the ARM7 target is little-endian). -/
def u32_bytes (v : Nat) : List Nat :=
  [v % 256, v / 256 % 256, v / 65536 % 256, v / 16777216 % 256]

/-- The `U32` that four bytes of memory hold. -/
def u32_of_bytes (bs : List Nat) : Nat :=
  bs.getD 0 0 + 256 * bs.getD 1 0 + 65536 * bs.getD 2 0 + 16777216 * bs.getD 3 0

/-- One call of `usb_send(data, length)`: the call is recorded with the
`length` bytes found at `data`. The prototype is in `usb.h`, which is not
part of the sources; `length` is taken to be wide enough for a `U32`. -/
def usb_send_call {σ : Type} (env : Env σ) (mem : List Nat) (length : Nat)
    (w : World σ) : World σ :=
  { w with hw := env.usb_send w.hw (mem.take length) length
           usb := w.usb ++ [(mem.take length, length)] }

/-- One call of `usb_can_send()`. -/
def usb_can_send_call {σ : Type} (env : Env σ) (w : World σ) : Bool × World σ :=
  let r := env.usb_can_send w.hw
  (r.1, { w with hw := r.2 })

/-- `radar_send_dump()`. -/
def radar_send_dump {σ : Type} (env : Env σ) (k : LcdConsts) (fuel : Nat)
    (w : World σ) : Option (World σ) :=
  let w1 : World σ := { w with display := display_string k "dumping... ".toList w.display }
  let w2 := usb_send_call env (u32_bytes w1.offset) 4 w1
  match spin (usb_can_send_call env) fuel w2 with
  | none => none
  | some w3 =>
    let w4 := usb_send_call env w3.dump w3.offset w3
    match spin (usb_can_send_call env) fuel w4 with
    | none => none
    | some w5 =>
      some { w5 with display := display_string k "done.\n".toList w5.display }

/-- Modelled from the spec: `display_end_line`, which `display.c` does not
define; the text renderer ends the current line. -/
def display_end_line (k : LcdConsts) (d : Display) : Display :=
  { d with cursor := update_cursor k true d.cursor }

/-- A byte array read as a C string. -/
def bytes_str (bs : List Nat) : List Char :=
  c_str (bs.map Char.ofNat)

/-- The beginning of `radar_info`, up to the end of the six transactions:
the world after them and the arrays `product_id`, `sensor_type` and
`version`. -/
def radar_info_read {σ : Type} (env : Env σ) (k : LcdConsts) (fuel : Nat)
    (sensor : Nat) (w0 : World σ) :
    Option (World σ × List Nat × List Nat × List Nat) :=
  let d1 := display_clear w0.display.display
  let d2 : Console := { w0.display with display := display_cursor_set_pos k 0 0 d1 }
  let d3 := display_string k "Searching radar...\n".toList d2
  let w : World σ := { w0 with display := d3 }
  let product_id := List.replicate 8 0
  let sensor_type := List.replicate 8 0
  let version := List.replicate 8 0
  (radar_txn env k fuel sensor [radar_commands.RADAR_PRODUCT_ID.val] 1
      i2c_txn_mode.TXN_MODE_WRITE false w).bind fun r1 =>
  (radar_txn env k fuel sensor product_id 8
      i2c_txn_mode.TXN_MODE_READ true r1.1).bind fun r2 =>
  (radar_txn env k fuel sensor [radar_commands.RADAR_SENSOR_TYPE.val] 1
      i2c_txn_mode.TXN_MODE_WRITE false r2.1).bind fun r3 =>
  (radar_txn env k fuel sensor sensor_type 8
      i2c_txn_mode.TXN_MODE_READ true r3.1).bind fun r4 =>
  (radar_txn env k fuel sensor [radar_commands.RADAR_VERSION.val] 1
      i2c_txn_mode.TXN_MODE_WRITE false r4.1).bind fun r5 =>
  (radar_txn env k fuel sensor version 8
      i2c_txn_mode.TXN_MODE_READ true r5.1).bind fun r6 =>
  some (r6.1, r2.2, r4.2, r6.2)

/-- The end of `radar_info`, from the test of the three arrays on. -/
def radar_info_report {σ : Type} (k : LcdConsts) (product_id sensor_type version : List Nat)
    (w : World σ) : World σ × Bool :=
  if product_id.getD 0 0 ≠ 0 ∧ sensor_type.getD 0 0 ≠ 0 ∧ version.getD 0 0 ≠ 0 then
    let d1 := display_string k "Found!\n\n".toList w.display
    let d2 := display_string k (bytes_str sensor_type) d1
    let d3 := display_string k " ".toList d2
    let d4 := display_string k (bytes_str version) d3
    let d5 : Console := { d4 with display := display_end_line k d4.display }
    let d6 := display_string k "    by ".toList d5
    let d7 := display_string k (bytes_str product_id) d6
    let d8 : Console := { d7 with display := display_end_line k d7.display }
    ({ w with display := d8 }, true)
  else
    let d1 := display_string k "Error!\n".toList w.display
    let d2 := display_string k "(OK to try again)\n".toList d1
    ({ w with display := d2 }, false)

/-- `radar_info(sensor)`. -/
def radar_info {σ : Type} (env : Env σ) (k : LcdConsts) (fuel : Nat) (sensor : Nat)
    (w : World σ) : Option (World σ × Bool) :=
  (radar_info_read env k fuel sensor w).bind fun r =>
  some (radar_info_report k r.2.1 r.2.2.1 r.2.2.2 r.1)

/-- The argument `8000 - r0 * 30` of `sound_freq_async`, an `int`. -/
def tone_freq (r0 : Nat) : Int :=
  8000 - (r0 : Int) * 30

/-- The beginning of `radar_test`, up to the end of the two transactions:
the world after them and `r0`. -/
def radar_test_read {σ : Type} (env : Env σ) (k : LcdConsts) (fuel : Nat)
    (sensor : Nat) (w0 : World σ) : Option (World σ × Nat) :=
  let d1 := display_clear w0.display.display
  let d2 : Console := { w0.display with display := display_cursor_set_pos k 0 0 d1 }
  let d3 := display_string k "Reading R0...\n".toList d2
  let d4 := display_string k "(cancel to halt)\n\n".toList d3
  let w : World σ := { w0 with display := d4 }
  (radar_txn env k fuel sensor [radar_commands.RADAR_R0.val] 1
      i2c_txn_mode.TXN_MODE_WRITE false w).bind fun r1 =>
  (radar_txn env k fuel sensor [0] 1
      i2c_txn_mode.TXN_MODE_READ true r1.1).bind fun r2 =>
  some (r2.1, r2.2.getD 0 0)

/-- The end of `radar_test`, from the display of the prompt on. -/
def radar_test_report {σ : Type} (k : LcdConsts) (r0 : Nat) (w : World σ) : World σ :=
  let d1 := display_string k ">> ".toList w.display
  if r0 ≠ 0 ∧ r0 < 0xFF then
    let d2 := display_uint k r0 d1
    let d3 := display_string k " cm\n".toList d2
    { w with display := d3, sound := w.sound ++ [(tone_freq r0, 100)] }
  else
    { w with display := display_string k "n/a\n".toList d1 }

/-- `radar_test(sensor)`. -/
def radar_test {σ : Type} (env : Env σ) (k : LcdConsts) (fuel : Nat) (sensor : Nat)
    (w : World σ) : Option (World σ) :=
  (radar_test_read env k fuel sensor w).bind fun r =>
  some (radar_test_report k r.2 r.1)

/-- After `n` calls of `i2c_busy` that return true, the next returns false. -/
def busy_clears {σ : Type} (env : Env σ) (sensor : Nat) : Nat → σ → Bool
  | 0, s => !(env.i2c_busy s sensor).1
  | n + 1, s => (env.i2c_busy s sensor).1 && busy_clears env sensor n (env.i2c_busy s sensor).2

/-- After `n` calls of `usb_can_send` that return true, the next returns false. -/
def usb_clears {σ : Type} (env : Env σ) : Nat → σ → Bool
  | 0, s => !(env.usb_can_send s).1
  | n + 1, s => (env.usb_can_send s).1 && usb_clears env n (env.usb_can_send s).2

/-- The hardware state after `n + 1` calls of `i2c_busy`. -/
def busy_after {σ : Type} (env : Env σ) (sensor : Nat) : Nat → σ → σ
  | 0, s => (env.i2c_busy s sensor).2
  | n + 1, s => busy_after env sensor n (env.i2c_busy s sensor).2

/-- The hardware state after `n + 1` calls of `usb_can_send`. -/
def usb_after {σ : Type} (env : Env σ) : Nat → σ → σ
  | 0, s => (env.usb_can_send s).2
  | n + 1, s => usb_after env n (env.usb_can_send s).2

/-- The transactions submitted among the calls of the bus transport, each
with its sensor, buffer contents, size, direction and restart flag. -/
def submitted : List I2cCall → List (Nat × List Nat × Nat × i2c_txn_mode × Bool)
  | [] => []
  | I2cCall.start sensor data size mode restart _ :: cs =>
    (sensor, data, size, mode, restart) :: submitted cs
  | _ :: cs => submitted cs

/-- The lines that `radar_txn` prints for a submission error. -/
def txn_error_lines (mode : i2c_txn_mode) (err : Nat) : List (List Char) :=
  [dir_str mode, "TXN error (".toList, display_uint_str err, ") !\n".toList]

/-- The lines that `radar_txn` prints for a completion status other than
success. -/
def data_error_lines (mode : i2c_txn_mode) (status : Nat) : List (List Char) :=
  [dir_str mode, "DATA error (".toList, display_uint_str status, ")\n".toList]

/-- A call of the bus transport that reports a failure: a submission error
or a completion status other than success. -/
def call_failed {σ : Type} (env : Env σ) : I2cCall → Bool
  | I2cCall.start _ _ _ _ _ err => err != env.I2C_ERR_OK
  | I2cCall.status _ st => st != env.TXN_STAT_SUCCESS
  | I2cCall.busy _ _ => false

/-- The transport stores nothing into the buffer of a transaction that it
reports as failed. -/
def quiet_on_failure {σ : Type} (env : Env σ) : Prop :=
  (∀ s sensor data size mode restart,
    (env.i2c_start_transaction s sensor data size mode restart).1 ≠ env.I2C_ERR_OK →
    env.i2c_rx (env.i2c_start_transaction s sensor data size mode restart).2 = []) ∧
  (∀ s sensor,
    (env.i2c_get_txn_status s sensor).1 ≠ env.TXN_STAT_SUCCESS →
    env.i2c_rx (env.i2c_get_txn_status s sensor).2 = [])

/-- A line "< ", which `radar_txn` prints when a read fails, was displayed
between the display states `before` and `after`. -/
def read_error_shown (before after : Console) : Bool :=
  decide ("< ".toList ∈ after.log.drop before.log.length)

/-- A computation with fuel returns: above some amount of fuel it gives a
result, always the same. -/
def Returns {α : Type} (f : Nat → Option α) : Prop :=
  ∃ n r, ∀ fuel, n < fuel → f fuel = some r

/-! ## A simulated sensor -/

/-- The state of a simulated sensor and host link: the register selected
last, the polls left before the bus or the link is idle, and the bytes
received by the running transaction. -/
structure Sonar where
  sel : Nat
  wait : Nat
  rx : List Nat
deriving DecidableEq, Repr

/-- The memory of the simulated sensor from address `addr` on, with `r0` in
the first distance register. -/
def sonar_mem (r0 : Nat) (addr : Nat) : List Nat :=
  if addr = 0x00 then [86, 49, 46, 48, 0, 0, 0, 0]
  else if addr = 0x08 then [76, 69, 71, 79, 0, 0, 0, 0]
  else if addr = 0x10 then [83, 111, 110, 97, 114, 0, 0, 0]
  else if addr = 0x42 then [r0]
  else []

/-- A bus transport in front of the simulated sensor. Writes are refused
with the submission error `werr` when it is not zero, and leave the
selected register alone; reads are refused with `rerr` when it is not zero,
and store nothing. Every accepted transaction is busy for two polls and
completes with status 0. -/
def sonarEnv (r0 werr rerr : Nat) : Env Sonar where
  I2C_ERR_OK := 0
  TXN_STAT_SUCCESS := 0
  i2c_start_transaction := fun s _ data size mode _ =>
    match mode with
    | i2c_txn_mode.TXN_MODE_WRITE =>
      if werr ≠ 0 then (werr, { s with rx := [] })
      else (0, { sel := data.headD 0, wait := 2, rx := [] })
    | i2c_txn_mode.TXN_MODE_READ =>
      if rerr ≠ 0 then (rerr, { s with rx := [] })
      else (0, { s with wait := 2, rx := (sonar_mem r0 s.sel).take size })
  i2c_busy := fun s _ =>
    if s.wait = 0 then (false, s) else (true, { s with wait := s.wait - 1 })
  i2c_get_txn_status := fun s _ => (0, s)
  i2c_rx := fun s => s.rx
  usb_send := fun s _ _ => { s with wait := 1 }
  usb_can_send := fun s =>
    if s.wait = 0 then (false, s) else (true, { s with wait := s.wait - 1 })

/-- The constants of the NXT display: 100 columns, 8 rows of text. -/
def nxtLcd : LcdConsts :=
  { LCD_WIDTH := 100, LCD_HEIGHT := 8, CELL_WIDTH := 6, FONT_START := 32 }

/-- A display that has never been written. -/
def blankDisplay : Display :=
  { buffer := [], cursor := { x := 0, y := 0, ignore_lf := false } }

/-- A world at rest, with the register `sel` selected in the sensor and a
capture of `offset` bytes. -/
def restWorld (sel offset : Nat) : World Sonar :=
  { hw := { sel := sel, wait := 0, rx := [] }
    i2c := []
    display := { display := blankDisplay, log := [] }
    sound := []
    usb := []
    offset := offset
    dump := List.replicate 1024 7
    record := false }

/-! ## The text display -/

theorem display_string_log (k : LcdConsts) (str : List Char) (c : Console) :
    (display_string k str c).log = c.log ++ [str] := rfl

theorem display_uint_log (k : LcdConsts) (val : Nat) (c : Console) :
    (display_uint k val c).log = c.log ++ [display_uint_str val] := rfl

theorem digit_char_ne_nul (n : Nat) (h : n < 10) : Char.ofNat (n + 48) ≠ '\x00' := by
  interval_cases n <;> decide

theorem digit_char_ne_lt (n : Nat) (h : n < 10) : Char.ofNat (n + 48) ≠ '<' := by
  interval_cases n <;> decide

theorem digit_chars_succ (v : Nat) (h : 0 < v) :
    digit_chars v = digit_chars (v / 10) ++ [Char.ofNat (v % 10 + 48)] := by
  unfold digit_chars
  rw [Nat.digits_def' (by decide) h]
  simp

theorem digit_chars_zero : digit_chars 0 = [] := by
  simp [digit_chars]

theorem mem_digit_chars {v : Nat} {c : Char} (h : c ∈ digit_chars v) :
    ∃ n, n < 10 ∧ c = Char.ofNat (n + 48) := by
  unfold digit_chars at h
  simp only [List.mem_map, List.mem_reverse] at h
  obtain ⟨n, hn, rfl⟩ := h
  exact ⟨n, Nat.digits_lt_base (by decide) hn, rfl⟩

theorem digit_chars_length (v : Nat) : (digit_chars v).length = (Nat.digits 10 v).length := by
  simp [digit_chars]

/-- The digit loop writes the decimal digits of `val` just below `ptr` and
moves `ptr` to the first of them, when they fit below `ptr`. -/
theorem display_uint_loop_spec :
    ∀ (val p : Nat) (pre suf : List Char), pre.length = p →
      (digit_chars val).length ≤ p →
      display_uint_loop val (p : Int) (pre ++ suf) =
        (((p - (digit_chars val).length : Nat) : Int),
          pre.take (p - (digit_chars val).length) ++ digit_chars val ++ suf) := by
  intro val
  induction val using Nat.strong_induction_on with
  | _ val ih =>
    intro p pre suf hp hlen
    rw [display_uint_loop]
    by_cases hv : val > 0
    · rw [dif_pos hv]
      have hd := digit_chars_succ val hv
      rw [hd, List.length_append, List.length_singleton] at hlen
      have hp1 : 1 ≤ p := by omega
      have hcast : ((p : Int) - 1) = ((p - 1 : Nat) : Int) := by omega
      simp only [hcast, Int.toNat_ofNat, Int.ofNat_zero_le, if_true]
      have hset : (pre ++ suf).set (p - 1) (Char.ofNat (val % 10 + 48)) =
          pre.take (p - 1) ++ (Char.ofNat (val % 10 + 48) :: suf) := by
        have hlt : p - 1 < pre.length := by omega
        rw [List.set_append_left _ _ hlt]
        rw [List.set_eq_take_append_cons_drop]
        rw [if_pos hlt]
        have : List.drop (p - 1 + 1) pre = [] := by
          apply List.drop_eq_nil_of_le; omega
        rw [this]
        simp
      rw [hset]
      have hlen1 : (pre.take (p - 1)).length = p - 1 := by
        rw [List.length_take]; omega
      rw [ih (val / 10) (Nat.div_lt_self hv (by decide)) (p - 1) (pre.take (p - 1))
        (Char.ofNat (val % 10 + 48) :: suf) hlen1 (by omega)]
      rw [hd, List.length_append, List.length_singleton]
      have e1 : p - 1 - (digit_chars (val / 10)).length =
          p - ((digit_chars (val / 10)).length + 1) := by omega
      rw [e1, List.take_take]
      have e2 : min (p - ((digit_chars (val / 10)).length + 1)) (p - 1) =
          p - ((digit_chars (val / 10)).length + 1) := by omega
      rw [e2]
      simp
    · rw [dif_neg hv]
      have h0 : val = 0 := by omega
      subst h0
      simp [digit_chars_zero, ← hp]

theorem c_str_digit_chars (v : Nat) : c_str (digit_chars v ++ ['\x00']) = digit_chars v := by
  unfold c_str
  rw [List.takeWhile_append_of_pos]
  · simp [List.takeWhile]
  · intro c hc
    obtain ⟨n, hn, rfl⟩ := mem_digit_chars hc
    simpa using digit_char_ne_nul n hn

theorem digit_chars_length_le (v : Nat) (h : v < 2 ^ 32) : (digit_chars v).length ≤ 10 := by
  rw [digit_chars_length]
  by_cases hv : v = 0
  · simp [hv]
  · rw [Nat.digits_len 10 v (by decide) hv]
    have : Nat.log 10 v < 10 := by
      apply Nat.log_lt_of_lt_pow hv
      calc v < 2 ^ 32 := h
        _ ≤ 10 ^ 10 := by norm_num
    omega

theorem final_c_str (pre ds : List Char) (h : pre.length + ds.length = 10) :
    c_str (((pre ++ ds ++ ['\x00']).set 10 '\x00').drop pre.length) =
      c_str (ds ++ ['\x00']) := by
  have hset : (pre ++ ds ++ ['\x00']).set 10 '\x00' = pre ++ ds ++ ['\x00'] := by
    have hl : (pre ++ ds).length = 10 := by simp [h]
    rw [← hl, List.set_append_right _ _ (le_refl _)]
    simp
  rw [hset, List.append_assoc, List.drop_left]

/-- The digit loop of `display_uint` started at `&buf[10]` stops at an index
inside `buf` for every 32-bit value, and the string handed to
`display_string` is the decimal digits of the value. -/
theorem display_uint_str_eq (val : Nat) :
    0 ≤ (display_uint_loop (val % 2 ^ 32) 10 (List.replicate 11 '\x00')).1 ∧
    display_uint_str val = digit_chars (val % 2 ^ 32) := by
  have hv : val % 2 ^ 32 < 2 ^ 32 := Nat.mod_lt _ (by norm_num)
  have hl := digit_chars_length_le _ hv
  have hspec := display_uint_loop_spec (val % 2 ^ 32) 10 (List.replicate 10 '\x00')
    ['\x00'] (by simp) hl
  have hrep : List.replicate 11 '\x00' = List.replicate 10 '\x00' ++ ['\x00'] := by decide
  have h10 : ((10 : Nat) : Int) = 10 := rfl
  rw [h10, ← hrep] at hspec
  constructor
  · rw [hspec]; exact Int.ofNat_zero_le _
  · unfold display_uint_str
    simp only [hspec, Int.toNat_ofNat]
    have hc := c_str_digit_chars (val % 2 ^ 32)
    generalize digit_chars (val % 2 ^ 32) = ds at hl hc ⊢
    have hlen : (List.take (10 - ds.length) (List.replicate 10 '\x00')).length =
        10 - ds.length := by
      simp
    have h := final_c_str (List.take (10 - ds.length) (List.replicate 10 '\x00')) ds
      (by rw [hlen]; omega)
    rw [hlen] at h
    exact h.trans hc

theorem display_uint_str_ne_read_mark (val : Nat) : display_uint_str val ≠ "< ".toList := by
  rw [(display_uint_str_eq val).2]
  intro h
  have hm : '<' ∈ digit_chars (val % 2 ^ 32) := by rw [h]; decide
  obtain ⟨n, hn, hc⟩ := mem_digit_chars hm
  exact digit_char_ne_lt n hn hc.symm

/-- `update_cursor` keeps an on-screen cursor on screen. -/
theorem update_cursor_on_screen (k : LcdConsts) (inc_y : Bool) (d : Display)
    (hh : 0 < k.LCD_HEIGHT) (h : cursor_on_screen k d) :
    cursor_on_screen k { d with cursor := update_cursor k inc_y d.cursor } := by
  obtain ⟨hx, hy⟩ := h
  simp only [cursor_on_screen, update_cursor]
  cases inc_y <;> simp <;> split_ifs <;> simp_all <;> omega

/-- `display_string` keeps an on-screen cursor on screen. -/
theorem display_string_on_screen (k : LcdConsts) (str : List Char)
    (hh : 0 < k.LCD_HEIGHT) :
    ∀ c : Console, cursor_on_screen k c.display →
      cursor_on_screen k (display_string k str c).display := by
  have key : ∀ d : Display, cursor_on_screen k d →
      cursor_on_screen k (display_chars k str d) := by
    induction str with
    | nil => intro d h; exact h
    | cons c cs ih =>
      intro d h
      simp only [display_chars]
      split
      · exact ih _ (update_cursor_on_screen k true d hh h)
      · apply ih
        exact update_cursor_on_screen k false
          { d with buffer := d.buffer ++
              [(d.cursor.y, d.cursor.x * k.CELL_WIDTH, char_to_font k c)] } hh h
  intro c h
  exact key c.display h

/-- C8: for every valid distance byte `d` in `[1, 254]` the tone frequency
`8000 - 30 * d` of `radar_test` lies in `[380, 7970]`, so it is positive and
fits an unsigned 16-bit (hence any wider) parameter without wrapping; it is
strictly decreasing in `d`, is 7970 at `d = 1` and 380 at `d = 254`. -/
theorem tone_freq_range (d : Nat) (h : 1 ≤ d ∧ d ≤ 254) :
    tone_freq d = 8000 - 30 * (d : Int) ∧
    380 ≤ tone_freq d ∧ tone_freq d ≤ 7970 ∧
    tone_freq d % 2 ^ 16 = tone_freq d ∧
    (∀ e : Nat, d < e → tone_freq e < tone_freq d) ∧
    tone_freq 1 = 7970 ∧ tone_freq 254 = 380 := by
  unfold tone_freq
  refine ⟨by ring, by omega, by omega, ?_, ?_, by norm_num, by norm_num⟩
  · apply Int.emod_eq_of_lt <;> omega
  · intro e he; omega

theorem tone_freq_range_witness :
    (1 ≤ 50 ∧ 50 ≤ 254) ∧ tone_freq 50 = 8000 - 30 * ((50 : Nat) : Int) ∧
    380 ≤ tone_freq 50 ∧ tone_freq 50 ≤ 7970 ∧
    tone_freq 50 % 2 ^ 16 = tone_freq 50 ∧
    (∀ e : Nat, 50 < e → tone_freq e < tone_freq 50) ∧
    tone_freq 1 = 7970 ∧ tone_freq 254 = 380 :=
  ⟨by decide, tone_freq_range 50 (by decide)⟩

theorem set_pos_refused_when_off_screen (k : LcdConsts) (x y : Nat) (d : Display)
    (h : ¬ cursor_on_screen k d) : display_cursor_set_pos k x y d = d := by
  unfold cursor_on_screen at h
  unfold display_cursor_set_pos is_on_screen
  simp [h]

/-- C9: the cursor invariant fails. On a screen with at most 255 columns,
`display_cursor_set_pos(255, 255)` right after `display_init` moves the
cursor to `(255, 255)`, off the screen, because `is_on_screen` tests the
current cursor and not the target; and a following
`display_cursor_set_pos(0, 0)`, an on-screen target, leaves it there. -/
theorem display_cursor_set_pos_off_screen (k : LcdConsts) (d : Display)
    (hw : 0 < k.LCD_WIDTH ∧ k.LCD_WIDTH ≤ 255) (hh : 0 < k.LCD_HEIGHT) :
    cursor_on_screen k (display_init d) ∧
    (display_cursor_set_pos k 255 255 (display_init d)).cursor.x = 255 ∧
    (display_cursor_set_pos k 255 255 (display_init d)).cursor.y = 255 ∧
    ¬ cursor_on_screen k (display_cursor_set_pos k 255 255 (display_init d)) ∧
    (display_cursor_set_pos k 0 0
      (display_cursor_set_pos k 255 255 (display_init d))).cursor.x = 255 := by
  have h1 : cursor_on_screen k (display_init d) := by
    simp [cursor_on_screen, display_init, display_clear]; omega
  have h2 : display_cursor_set_pos k 255 255 (display_init d) =
      { display_init d with cursor := { x := 255, y := 255, ignore_lf := false } } := by
    unfold display_cursor_set_pos is_on_screen
    unfold cursor_on_screen at h1
    simp [h1]
    simp [display_init]
  have h3 : ¬ cursor_on_screen k (display_cursor_set_pos k 255 255 (display_init d)) := by
    rw [h2]; simp [cursor_on_screen]; omega
  refine ⟨h1, by rw [h2], by rw [h2], h3, ?_⟩
  rw [set_pos_refused_when_off_screen k 0 0 _ h3, h2]

theorem display_cursor_set_pos_off_screen_witness :
    cursor_on_screen nxtLcd (display_init blankDisplay) ∧
    (display_cursor_set_pos nxtLcd 255 255 (display_init blankDisplay)).cursor.x = 255 ∧
    (display_cursor_set_pos nxtLcd 255 255 (display_init blankDisplay)).cursor.y = 255 ∧
    ¬ cursor_on_screen nxtLcd (display_cursor_set_pos nxtLcd 255 255 (display_init blankDisplay)) ∧
    (display_cursor_set_pos nxtLcd 0 0
      (display_cursor_set_pos nxtLcd 255 255 (display_init blankDisplay))).cursor.x = 255 :=
  display_cursor_set_pos_off_screen nxtLcd blankDisplay (by decide) (by decide)

/-- C10: `display_uint(0)` hands the empty string to `display_string`, not
the numeral "0": the digit loop is not entered for 0. -/
theorem display_uint_zero (k : LcdConsts) (c : Console) :
    display_uint_str 0 = [] ∧ display_uint_str 0 ≠ ['0'] ∧
    display_uint k 0 c = { c with log := c.log ++ [[]] } := by
  have h : display_uint_str 0 = [] := by
    simp [display_uint_str, display_uint_loop, c_str]
  refine ⟨h, by rw [h]; decide, ?_⟩
  simp [display_uint, display_string, h, display_chars]

/-! ## The transaction executor -/

theorem spin_busy_of_clears {σ : Type} (env : Env σ) (sensor : Nat) :
    ∀ (n fuel : Nat) (w : World σ), busy_clears env sensor n w.hw = true → n < fuel →
      spin (i2c_busy_call env sensor) fuel w =
        some { w with
          hw := busy_after env sensor n w.hw
          i2c := w.i2c ++ List.replicate n (I2cCall.busy sensor true) ++
            [I2cCall.busy sensor false] } := by
  intro n
  induction n with
  | zero =>
    intro fuel w h hf
    obtain ⟨f, rfl⟩ : ∃ f, fuel = f + 1 := ⟨fuel - 1, by omega⟩
    simp only [busy_clears, Bool.not_eq_true'] at h
    simp [spin, i2c_busy_call, h, busy_after]
  | succ n ih =>
    intro fuel w h hf
    obtain ⟨f, rfl⟩ : ∃ f, fuel = f + 1 := ⟨fuel - 1, by omega⟩
    simp only [busy_clears, Bool.and_eq_true] at h
    have h2 := ih f
      { w with hw := (env.i2c_busy w.hw sensor).2
               i2c := w.i2c ++ [I2cCall.busy sensor true] } h.2 (by omega)
    simp only [spin, i2c_busy_call, h.1, if_true]
    rw [h2]
    simp [busy_after, List.replicate_succ]

theorem spin_busy_some {σ : Type} (env : Env σ) (sensor : Nat) :
    ∀ (fuel : Nat) (w w' : World σ), spin (i2c_busy_call env sensor) fuel w = some w' →
      ∃ n, n < fuel ∧ busy_clears env sensor n w.hw = true := by
  intro fuel
  induction fuel with
  | zero => intro w w' h; simp [spin] at h
  | succ f ih =>
    intro w w' h
    simp only [spin] at h
    by_cases hb : (env.i2c_busy w.hw sensor).1 = true
    · simp only [i2c_busy_call, hb, if_true] at h
      obtain ⟨n, hn, hc⟩ := ih _ _ h
      exact ⟨n + 1, by omega, by simp [busy_clears, hb, hc]⟩
    · exact ⟨0, by omega, by simpa [busy_clears] using hb⟩

/-- What `radar_txn` does when the submission is refused. -/
theorem radar_txn_refused {σ : Type} (env : Env σ) (k : LcdConsts) (fuel sensor : Nat)
    (data : List Nat) (size : Nat) (mode : i2c_txn_mode) (restart : Bool) (w : World σ)
    (herr : (env.i2c_start_transaction w.hw sensor data size mode restart).1 ≠
      env.I2C_ERR_OK) :
    ∃ w', radar_txn env k fuel sensor data size mode restart w =
        some (w', store size (env.i2c_rx w'.hw) data) ∧
      w'.hw = (env.i2c_start_transaction w.hw sensor data size mode restart).2 ∧
      w'.i2c = w.i2c ++ [I2cCall.start sensor data size mode restart
        (env.i2c_start_transaction w.hw sensor data size mode restart).1] ∧
      w'.display.log = w.display.log ++ txn_error_lines mode
        (env.i2c_start_transaction w.hw sensor data size mode restart).1 ∧
      w'.sound = w.sound ∧ w'.usb = w.usb ∧ w'.offset = w.offset ∧ w'.dump = w.dump := by
  simp only [radar_txn, herr, ne_eq, not_false_eq_true, if_true]
  exact ⟨_, rfl, by simp [display_string_log, display_uint_log, txn_error_lines]⟩

/-- What `radar_txn` does when the submission is accepted and `i2c_busy`
returns false after `n` polls that returned true. -/
theorem radar_txn_accepted {σ : Type} (env : Env σ) (k : LcdConsts) (fuel sensor : Nat)
    (data : List Nat) (size : Nat) (mode : i2c_txn_mode) (restart : Bool) (w : World σ)
    (n : Nat)
    (herr : (env.i2c_start_transaction w.hw sensor data size mode restart).1 =
      env.I2C_ERR_OK)
    (hbusy : busy_clears env sensor n
      (env.i2c_start_transaction w.hw sensor data size mode restart).2 = true)
    (hfuel : n < fuel) :
    ∃ w', radar_txn env k fuel sensor data size mode restart w =
        some (w', store size (env.i2c_rx w'.hw) data) ∧
      w'.hw = (env.i2c_get_txn_status (busy_after env sensor n
        (env.i2c_start_transaction w.hw sensor data size mode restart).2) sensor).2 ∧
      w'.i2c = w.i2c ++ [I2cCall.start sensor data size mode restart env.I2C_ERR_OK] ++
        List.replicate n (I2cCall.busy sensor true) ++
        [I2cCall.busy sensor false,
         I2cCall.status sensor (env.i2c_get_txn_status (busy_after env sensor n
          (env.i2c_start_transaction w.hw sensor data size mode restart).2) sensor).1] ∧
      w'.display.log = w.display.log ++
        (if (env.i2c_get_txn_status (busy_after env sensor n
            (env.i2c_start_transaction w.hw sensor data size mode restart).2) sensor).1 ≠
            env.TXN_STAT_SUCCESS
         then data_error_lines mode (env.i2c_get_txn_status (busy_after env sensor n
            (env.i2c_start_transaction w.hw sensor data size mode restart).2) sensor).1
         else []) ∧
      w'.sound = w.sound ∧ w'.usb = w.usb ∧ w'.offset = w.offset ∧ w'.dump = w.dump := by
  have hs := spin_busy_of_clears env sensor n fuel
    { w with hw := (env.i2c_start_transaction w.hw sensor data size mode restart).2
             i2c := w.i2c ++ [I2cCall.start sensor data size mode restart env.I2C_ERR_OK] }
    hbusy hfuel
  by_cases hst : (env.i2c_get_txn_status (busy_after env sensor n
      (env.i2c_start_transaction w.hw sensor data size mode restart).2) sensor).1 ≠
      env.TXN_STAT_SUCCESS
  · simp only [radar_txn, herr, ne_eq, not_true_eq_false, if_false, hs]
    rw [if_pos hst, if_pos hst]
    exact ⟨_, rfl, by simp [display_string_log, display_uint_log, data_error_lines]⟩
  · simp only [radar_txn, herr, ne_eq, not_true_eq_false, if_false, hs]
    rw [if_neg hst, if_neg hst]
    exact ⟨_, rfl, by simp⟩

theorem submitted_append (a b : List I2cCall) :
    submitted (a ++ b) = submitted a ++ submitted b := by
  induction a with
  | nil => rfl
  | cons c cs ih =>
    cases c <;> simp [submitted, ih]

theorem submitted_replicate_busy (n sensor : Nat) (b : Bool) :
    submitted (List.replicate n (I2cCall.busy sensor b)) = [] := by
  induction n with
  | zero => rfl
  | succ n ih => simp [List.replicate_succ, submitted, ih]

theorem store_nil (size : Nat) (buf : List Nat) : store size [] buf = buf := by
  simp [store]

theorem store_length (size : Nat) (rx buf : List Nat) :
    (store size rx buf).length = buf.length := by
  simp only [store, List.length_append, List.length_map, List.length_drop, List.length_take]
  omega

theorem store_lt (size : Nat) (rx buf : List Nat) (h : ∀ b ∈ buf, b < 256) :
    ∀ b ∈ store size rx buf, b < 256 := by
  intro b hb
  simp only [store, List.mem_append, List.mem_map] at hb
  rcases hb with ⟨a, _, rfl⟩ | hb
  · exact Nat.mod_lt _ (by decide)
  · exact h b (List.mem_of_mem_drop hb)

theorem read_mark_mem_txn_error_lines {mode : i2c_txn_mode} {err : Nat}
    (h : "< ".toList ∈ txn_error_lines mode err) : mode = i2c_txn_mode.TXN_MODE_READ := by
  cases mode
  · exfalso
    simp only [txn_error_lines, List.mem_cons, List.mem_singleton, List.not_mem_nil,
      or_false] at h
    rcases h with h | h | h | h
    · revert h; decide
    · revert h; decide
    · exact display_uint_str_ne_read_mark err h.symm
    · revert h; decide
  · rfl

theorem read_mark_mem_data_error_lines {mode : i2c_txn_mode} {st : Nat}
    (h : "< ".toList ∈ data_error_lines mode st) : mode = i2c_txn_mode.TXN_MODE_READ := by
  cases mode
  · exfalso
    simp only [data_error_lines, List.mem_cons, List.mem_singleton, List.not_mem_nil,
      or_false] at h
    rcases h with h | h | h | h
    · revert h; decide
    · revert h; decide
    · exact display_uint_str_ne_read_mark st h.symm
    · revert h; decide
  · rfl

/-- What a completed call of `radar_txn` leaves behind: one more submitted
transaction, the buffer as the transport stored it, some lines on the
display, and nothing else. A line "< " appears only for a failed read. -/
theorem radar_txn_some {σ : Type} (env : Env σ) (k : LcdConsts) (fuel sensor : Nat)
    (data : List Nat) (size : Nat) (mode : i2c_txn_mode) (restart : Bool)
    (w w' : World σ) (buf : List Nat)
    (h : radar_txn env k fuel sensor data size mode restart w = some (w', buf)) :
    buf = store size (env.i2c_rx w'.hw) data ∧
    w'.sound = w.sound ∧ w'.usb = w.usb ∧ w'.offset = w.offset ∧ w'.dump = w.dump ∧
    submitted w'.i2c = submitted w.i2c ++ [(sensor, data, size, mode, restart)] ∧
    ∃ diag, w'.display.log = w.display.log ++ diag ∧
      ("< ".toList ∈ diag → mode = i2c_txn_mode.TXN_MODE_READ ∧
        (quiet_on_failure env → env.i2c_rx w'.hw = [])) := by
  by_cases herr : (env.i2c_start_transaction w.hw sensor data size mode restart).1 ≠
      env.I2C_ERR_OK
  · obtain ⟨v, hv, hhw, hi2c, hlog, hs, hu, ho, hd⟩ :=
      radar_txn_refused env k fuel sensor data size mode restart w herr
    rw [hv] at h
    simp only [Option.some.injEq, Prod.mk.injEq] at h
    obtain ⟨rfl, rfl⟩ := h
    refine ⟨rfl, hs, hu, ho, hd, ?_, _, hlog, ?_⟩
    · rw [hi2c, submitted_append]; rfl
    · intro hm
      refine ⟨read_mark_mem_txn_error_lines hm, fun hq => ?_⟩
      rw [hhw]
      exact hq.1 _ _ _ _ _ _ herr
  · have herr' : (env.i2c_start_transaction w.hw sensor data size mode restart).1 =
        env.I2C_ERR_OK := by
      by_contra hc; exact herr hc
    have hn : ∃ n, n < fuel ∧ busy_clears env sensor n
        (env.i2c_start_transaction w.hw sensor data size mode restart).2 = true := by
      cases hsp : spin (i2c_busy_call env sensor) fuel
        { w with hw := (env.i2c_start_transaction w.hw sensor data size mode restart).2
                 i2c := w.i2c ++ [I2cCall.start sensor data size mode restart
                   env.I2C_ERR_OK] } with
      | none => simp [radar_txn, herr', hsp] at h
      | some w2 => exact spin_busy_some env sensor fuel _ _ hsp
    obtain ⟨n, hf, hb⟩ := hn
    obtain ⟨v, hv, hhw, hi2c, hlog, hs, hu, ho, hd⟩ :=
      radar_txn_accepted env k fuel sensor data size mode restart w n herr' hb hf
    rw [hv] at h
    simp only [Option.some.injEq, Prod.mk.injEq] at h
    obtain ⟨rfl, rfl⟩ := h
    refine ⟨rfl, hs, hu, ho, hd, ?_, _, hlog, ?_⟩
    · rw [hi2c]
      simp [submitted_append, submitted_replicate_busy, submitted]
    · intro hm
      split at hm
      · rename_i hst
        refine ⟨read_mark_mem_data_error_lines hm, fun hq => ?_⟩
        rw [hhw]
        exact hq.2 _ _ hst
      · simp at hm

/-- With a bus that always becomes idle, `radar_txn` returns for every fuel
above some bound, and always with the same result. -/
theorem radar_txn_total {σ : Type} (env : Env σ) (k : LcdConsts) (sensor : Nat)
    (hidle : ∀ s, ∃ n, busy_clears env sensor n s = true)
    (data : List Nat) (size : Nat) (mode : i2c_txn_mode) (restart : Bool) (w : World σ) :
    ∃ n r, ∀ fuel, n < fuel →
      radar_txn env k fuel sensor data size mode restart w = some r := by
  by_cases herr : (env.i2c_start_transaction w.hw sensor data size mode restart).1 ≠
      env.I2C_ERR_OK
  · refine ⟨0, ?_⟩
    simp only [radar_txn, herr, ne_eq, not_false_eq_true, if_true]
    exact ⟨_, fun _ _ => rfl⟩
  · have herr' : (env.i2c_start_transaction w.hw sensor data size mode restart).1 =
        env.I2C_ERR_OK := by
      by_contra hc; exact herr hc
    obtain ⟨n, hn⟩ := hidle (env.i2c_start_transaction w.hw sensor data size mode restart).2
    have hs := fun fuel hf => spin_busy_of_clears env sensor n fuel
      { w with hw := (env.i2c_start_transaction w.hw sensor data size mode restart).2
               i2c := w.i2c ++ [I2cCall.start sensor data size mode restart env.I2C_ERR_OK] }
      hn hf
    have heq : ∀ fuel, n < fuel →
        radar_txn env k fuel sensor data size mode restart w =
          radar_txn env k (n + 1) sensor data size mode restart w := by
      intro fuel hf
      simp only [radar_txn, herr', ne_eq, not_true_eq_false, if_false]
      rw [hs fuel hf, hs (n + 1) (by omega)]
    obtain ⟨v, hv, _⟩ :=
      radar_txn_accepted env k (n + 1) sensor data size mode restart w n herr' hn (by omega)
    exact ⟨n, _, fun fuel hf => (heq fuel hf).trans hv⟩

/-- C5: when `i2c_busy` returns false after `n` polls that returned true
(needed only if the submission is accepted), `radar_txn` returns, and its
calls of the bus transport are: one
`i2c_start_transaction` with the caller's sensor, buffer, size, direction
and restart flag; nothing more if that returns an error; otherwise `n`
polls of `i2c_busy` that return true, the poll that returns false, and then
one `i2c_get_txn_status`. The "DATA error" lines are displayed if and only
if that status is not success. -/
theorem radar_txn_calls {σ : Type} (env : Env σ) (k : LcdConsts) (fuel sensor : Nat)
    (data : List Nat) (size : Nat) (mode : i2c_txn_mode) (restart : Bool) (w : World σ)
    (n : Nat)
    (hbusy : (env.i2c_start_transaction w.hw sensor data size mode restart).1 =
        env.I2C_ERR_OK →
      busy_clears env sensor n
        (env.i2c_start_transaction w.hw sensor data size mode restart).2 = true)
    (hfuel : n < fuel) :
    ∃ w' buf, radar_txn env k fuel sensor data size mode restart w = some (w', buf) ∧
      ((env.i2c_start_transaction w.hw sensor data size mode restart).1 ≠ env.I2C_ERR_OK →
        w'.i2c = w.i2c ++ [I2cCall.start sensor data size mode restart
          (env.i2c_start_transaction w.hw sensor data size mode restart).1] ∧
        w'.display.log = w.display.log ++ txn_error_lines mode
          (env.i2c_start_transaction w.hw sensor data size mode restart).1) ∧
      ((env.i2c_start_transaction w.hw sensor data size mode restart).1 = env.I2C_ERR_OK →
        ∃ status,
          status = (env.i2c_get_txn_status (busy_after env sensor n
            (env.i2c_start_transaction w.hw sensor data size mode restart).2) sensor).1 ∧
          w'.i2c = w.i2c ++ [I2cCall.start sensor data size mode restart env.I2C_ERR_OK] ++
            List.replicate n (I2cCall.busy sensor true) ++
            [I2cCall.busy sensor false, I2cCall.status sensor status] ∧
          (status ≠ env.TXN_STAT_SUCCESS →
            w'.display.log = w.display.log ++ data_error_lines mode status) ∧
          (status = env.TXN_STAT_SUCCESS → w'.display.log = w.display.log)) := by
  by_cases herr : (env.i2c_start_transaction w.hw sensor data size mode restart).1 ≠
      env.I2C_ERR_OK
  · obtain ⟨v, hv, _, hi2c, hlog, _⟩ :=
      radar_txn_refused env k fuel sensor data size mode restart w herr
    exact ⟨v, _, hv, fun _ => ⟨hi2c, hlog⟩, fun h => absurd h herr⟩
  · have herr' : (env.i2c_start_transaction w.hw sensor data size mode restart).1 =
        env.I2C_ERR_OK := by
      by_contra hc; exact herr hc
    obtain ⟨v, hv, _, hi2c, hlog, _⟩ :=
      radar_txn_accepted env k fuel sensor data size mode restart w n herr' (hbusy herr')
        hfuel
    refine ⟨v, _, hv, fun h => absurd herr' h, fun _ => ⟨_, rfl, hi2c, ?_, ?_⟩⟩
    · intro hst; rw [hlog, if_pos hst]
    · intro hst; rw [hlog, if_neg (not_not.mpr hst)]; simp

theorem radar_txn_calls_witness :
    (((sonarEnv 50 0 0).i2c_start_transaction (restWorld 0 0).hw 0 [0x42] 1
        i2c_txn_mode.TXN_MODE_WRITE false).1 = (sonarEnv 50 0 0).I2C_ERR_OK →
      busy_clears (sonarEnv 50 0 0) 0 2
        ((sonarEnv 50 0 0).i2c_start_transaction (restWorld 0 0).hw 0 [0x42] 1
          i2c_txn_mode.TXN_MODE_WRITE false).2 = true) ∧
    2 < 3 ∧
    ∃ w' buf, radar_txn (sonarEnv 50 0 0) nxtLcd 3 0 [0x42] 1
        i2c_txn_mode.TXN_MODE_WRITE false (restWorld 0 0) = some (w', buf) ∧
      w'.i2c = [I2cCall.start 0 [0x42] 1 i2c_txn_mode.TXN_MODE_WRITE false 0,
        I2cCall.busy 0 true, I2cCall.busy 0 true, I2cCall.busy 0 false,
        I2cCall.status 0 0] ∧
      w'.display.log = [] := by
  refine ⟨fun _ => by decide, by decide, ?_⟩
  obtain ⟨w', buf, h, _, hok⟩ := radar_txn_calls (sonarEnv 50 0 0) nxtLcd 3 0 [0x42] 1
    i2c_txn_mode.TXN_MODE_WRITE false (restWorld 0 0) 2 (fun _ => by decide) (by decide)
  obtain ⟨status, hst, hi2c, _, hlog⟩ := hok rfl
  have hst0 : status = 0 := hst
  subst hst0
  exact ⟨w', buf, h, hi2c, hlog rfl⟩

/-! ## The ranging protocol -/

/-- What the first part of `radar_test` leaves behind when its two
transactions complete. -/
theorem radar_test_read_some {σ : Type} (env : Env σ) (k : LcdConsts) (fuel sensor : Nat)
    (w w1 : World σ) (d : Nat)
    (h : radar_test_read env k fuel sensor w = some (w1, d)) :
    d < 256 ∧ w1.sound = w.sound ∧ w1.usb = w.usb ∧
    submitted w1.i2c = submitted w.i2c ++
      [(sensor, [radar_commands.RADAR_R0.val], 1, i2c_txn_mode.TXN_MODE_WRITE, false),
       (sensor, [0], 1, i2c_txn_mode.TXN_MODE_READ, true)] ∧
    ∃ diag, w1.display.log = w.display.log ++ diag ∧
      ("< ".toList ∈ diag → quiet_on_failure env → d = 0) := by
  simp only [radar_test_read, Option.bind_eq_some, Option.some.injEq, Prod.mk.injEq,
    Prod.exists] at h
  obtain ⟨wa, ba, h1, wb, bb, h2, rfl, rfl⟩ := h
  obtain ⟨_, hs1, hu1, _, _, hsub1, g1, hlog1, hm1⟩ := radar_txn_some _ _ _ _ _ _ _ _ _ _ _ h1
  obtain ⟨hb2, hs2, hu2, _, _, hsub2, g2, hlog2, hm2⟩ := radar_txn_some _ _ _ _ _ _ _ _ _ _ _ h2
  refine ⟨?_, by rw [hs2, hs1], by rw [hu2, hu1], ?_, ?_⟩
  · have hl := store_lt 1 (env.i2c_rx wb.hw) [0] (by simp)
    have hlen := store_length 1 (env.i2c_rx wb.hw) [0]
    rw [← hb2] at hl hlen
    match bb, hl, hlen with
    | [b], hl, _ => simpa using hl b (by simp)
  · rw [hsub2, hsub1]; simp
  · refine ⟨["Reading R0...\n".toList, "(cancel to halt)\n\n".toList] ++ g1 ++ g2, ?_, ?_⟩
    · rw [hlog2, hlog1]
      simp [display_string_log]
    · intro hm hq
      simp only [List.mem_append, List.mem_cons, List.mem_singleton, List.not_mem_nil,
        or_false] at hm
      rcases hm with (hm | hm) | hm
      · rcases hm with hm | hm <;> exact absurd hm (by decide)
      · exact absurd (hm1 hm).1 (by decide)
      · rw [hb2, (hm2 hm).2 hq, store_nil]; rfl

theorem digit_chars_of_byte (d : Nat) (h : d < 256) : display_uint_str d = digit_chars d := by
  rw [(display_uint_str_eq d).2, Nat.mod_eq_of_lt (by omega)]

theorem radar_test_report_valid {σ : Type} (k : LcdConsts) (d : Nat) (w : World σ)
    (h : d ≠ 0 ∧ d < 0xFF) :
    (radar_test_report k d w).sound = w.sound ++ [(tone_freq d, 100)] ∧
    (radar_test_report k d w).display.log =
      w.display.log ++ [">> ".toList, display_uint_str d, " cm\n".toList] := by
  unfold radar_test_report
  rw [if_pos h]
  simp [display_string_log, display_uint_log]

theorem radar_test_report_sentinel {σ : Type} (k : LcdConsts) (d : Nat) (w : World σ)
    (h : ¬ (d ≠ 0 ∧ d < 0xFF)) :
    (radar_test_report k d w).sound = w.sound ∧
    (radar_test_report k d w).display.log =
      w.display.log ++ [">> ".toList, "n/a\n".toList] := by
  unfold radar_test_report
  rw [if_neg h]
  simp [display_string_log]

/-- C1: when the 1-byte read of R0 in `radar_test` returns a byte `d` with
`1 ≤ d ≤ 254`, `radar_test` returns, displays ">> ", the decimal digits of
`d` and " cm\n", and makes exactly one call of `sound_freq_async`, with the
arguments `8000 - 30 * d` and 100. -/
theorem radar_test_valid {σ : Type} (env : Env σ) (k : LcdConsts) (fuel sensor : Nat)
    (w : World σ) (d : Nat)
    (hread : (radar_test_read env k fuel sensor w).map Prod.snd = some d)
    (hd : 1 ≤ d ∧ d ≤ 254) :
    ∃ w1 w', radar_test_read env k fuel sensor w = some (w1, d) ∧
      radar_test env k fuel sensor w = some w' ∧
      w'.sound = w.sound ++ [(8000 - 30 * (d : Int), 100)] ∧
      w'.display.log = w1.display.log ++ [">> ".toList, digit_chars d, " cm\n".toList] := by
  simp only [Option.map_eq_some', Prod.exists, exists_eq_right] at hread
  obtain ⟨w1, h⟩ := hread
  obtain ⟨hlt, hs, _⟩ := radar_test_read_some env k fuel sensor w w1 d h
  have hc : d ≠ 0 ∧ d < 0xFF := ⟨by omega, by omega⟩
  refine ⟨w1, radar_test_report k d w1, h, by simp [radar_test, h], ?_, ?_⟩
  · rw [(radar_test_report_valid k d w1 hc).1, hs, tone_freq]
    congr 2
    ring_nf
  · rw [(radar_test_report_valid k d w1 hc).2, digit_chars_of_byte d hlt]

theorem radar_test_valid_witness :
    (∃ w1 w', radar_test_read (sonarEnv 0x32 0 0) nxtLcd 3 0 (restWorld 0 0) = some (w1, 50) ∧
      radar_test (sonarEnv 0x32 0 0) nxtLcd 3 0 (restWorld 0 0) = some w' ∧
      w'.sound = (restWorld 0 0).sound ++ [(8000 - 30 * ((50 : Nat) : Int), 100)] ∧
      w'.display.log = w1.display.log ++ [">> ".toList, digit_chars 50, " cm\n".toList]) ∧
    (radar_test (sonarEnv 0x32 0 0) nxtLcd 3 0 (restWorld 0 0)).map (fun w => w.sound) =
      some [(6500, 100)] ∧
    digit_chars 50 = ['5', '0'] :=
  ⟨radar_test_valid (sonarEnv 0x32 0 0) nxtLcd 3 0 (restWorld 0 0) 50 (by rfl) (by decide),
    by rfl, by simp [digit_chars]⟩

/-- C2: when the 1-byte read of R0 in `radar_test` returns the byte `d`,
`radar_test` returns; if `d` is 0 or 255 it displays ">> " and "n/a\n" and
makes no call of `sound_freq_async`; and a call of `sound_freq_async` is
made if and only if `1 ≤ d ≤ 254`. -/
theorem radar_test_no_reading {σ : Type} (env : Env σ) (k : LcdConsts) (fuel sensor : Nat)
    (w : World σ) (d : Nat)
    (hread : (radar_test_read env k fuel sensor w).map Prod.snd = some d) :
    ∃ w1 w', radar_test_read env k fuel sensor w = some (w1, d) ∧
      radar_test env k fuel sensor w = some w' ∧
      (d = 0 ∨ d = 255 →
        w'.sound = w.sound ∧
        w'.display.log = w1.display.log ++ [">> ".toList, "n/a\n".toList]) ∧
      (w'.sound ≠ w.sound ↔ 1 ≤ d ∧ d ≤ 254) := by
  simp only [Option.map_eq_some', Prod.exists, exists_eq_right] at hread
  obtain ⟨w1, h⟩ := hread
  obtain ⟨hlt, hs, _⟩ := radar_test_read_some env k fuel sensor w w1 d h
  refine ⟨w1, radar_test_report k d w1, h, by simp [radar_test, h], ?_, ?_⟩
  · intro hd
    have hc : ¬ (d ≠ 0 ∧ d < 0xFF) := by omega
    rw [(radar_test_report_sentinel k d w1 hc).1, (radar_test_report_sentinel k d w1 hc).2]
    exact ⟨hs, rfl⟩
  · by_cases hc : d ≠ 0 ∧ d < 0xFF
    · rw [(radar_test_report_valid k d w1 hc).1, hs]
      constructor
      · intro _; omega
      · intro _; simp
    · rw [(radar_test_report_sentinel k d w1 hc).1, hs]
      constructor
      · intro hne; exact absurd rfl hne
      · intro hd; omega

theorem radar_test_no_reading_witness :
    ∃ w1 w', radar_test_read (sonarEnv 255 0 0) nxtLcd 3 0 (restWorld 0 0) = some (w1, 255) ∧
      radar_test (sonarEnv 255 0 0) nxtLcd 3 0 (restWorld 0 0) = some w' ∧
      (255 = 0 ∨ 255 = 255 →
        w'.sound = (restWorld 0 0).sound ∧
        w'.display.log = w1.display.log ++ [">> ".toList, "n/a\n".toList]) ∧
      (w'.sound ≠ (restWorld 0 0).sound ↔ 1 ≤ 255 ∧ 255 ≤ 254) :=
  radar_test_no_reading (sonarEnv 255 0 0) nxtLcd 3 0 (restWorld 0 0) 255 (by rfl)

/-! ## The identification protocol -/

theorem getD_zero_of_eq_replicate {buf : List Nat} (h : buf = List.replicate 8 0) :
    buf.getD 0 0 = 0 := by
  subst h; rfl

/-- What the first part of `radar_info` leaves behind when its six
transactions complete. -/
theorem radar_info_read_some {σ : Type} (env : Env σ) (k : LcdConsts) (fuel sensor : Nat)
    (w w1 : World σ) (pid st ver : List Nat)
    (h : radar_info_read env k fuel sensor w = some (w1, pid, st, ver)) :
    pid.length = 8 ∧ st.length = 8 ∧ ver.length = 8 ∧ w1.sound = w.sound ∧
    submitted w1.i2c = submitted w.i2c ++
      [(sensor, [radar_commands.RADAR_PRODUCT_ID.val], 1, i2c_txn_mode.TXN_MODE_WRITE, false),
       (sensor, List.replicate 8 0, 8, i2c_txn_mode.TXN_MODE_READ, true),
       (sensor, [radar_commands.RADAR_SENSOR_TYPE.val], 1, i2c_txn_mode.TXN_MODE_WRITE, false),
       (sensor, List.replicate 8 0, 8, i2c_txn_mode.TXN_MODE_READ, true),
       (sensor, [radar_commands.RADAR_VERSION.val], 1, i2c_txn_mode.TXN_MODE_WRITE, false),
       (sensor, List.replicate 8 0, 8, i2c_txn_mode.TXN_MODE_READ, true)] ∧
    ∃ diag, w1.display.log = w.display.log ++ diag ∧
      ("< ".toList ∈ diag → quiet_on_failure env →
        pid.getD 0 0 = 0 ∨ st.getD 0 0 = 0 ∨ ver.getD 0 0 = 0) := by
  simp only [radar_info_read, Option.bind_eq_some, Option.some.injEq, Prod.mk.injEq,
    Prod.exists] at h
  obtain ⟨w1', b1, h1, w2, b2, h2, w3, b3, h3, w4, b4, h4, w5, b5, h5, w6, b6, h6,
    rfl, rfl, rfl, rfl⟩ := h
  obtain ⟨_, hs1, _, _, _, hsub1, g1, hlog1, hm1⟩ := radar_txn_some _ _ _ _ _ _ _ _ _ _ _ h1
  obtain ⟨hb2, hs2, _, _, _, hsub2, g2, hlog2, hm2⟩ := radar_txn_some _ _ _ _ _ _ _ _ _ _ _ h2
  obtain ⟨_, hs3, _, _, _, hsub3, g3, hlog3, hm3⟩ := radar_txn_some _ _ _ _ _ _ _ _ _ _ _ h3
  obtain ⟨hb4, hs4, _, _, _, hsub4, g4, hlog4, hm4⟩ := radar_txn_some _ _ _ _ _ _ _ _ _ _ _ h4
  obtain ⟨_, hs5, _, _, _, hsub5, g5, hlog5, hm5⟩ := radar_txn_some _ _ _ _ _ _ _ _ _ _ _ h5
  obtain ⟨hb6, hs6, _, _, _, hsub6, g6, hlog6, hm6⟩ := radar_txn_some _ _ _ _ _ _ _ _ _ _ _ h6
  refine ⟨by rw [hb2, store_length]; rfl, by rw [hb4, store_length]; rfl,
    by rw [hb6, store_length]; rfl, by rw [hs6, hs5, hs4, hs3, hs2, hs1], ?_, ?_⟩
  · rw [hsub6, hsub5, hsub4, hsub3, hsub2, hsub1]; simp
  · refine ⟨["Searching radar...\n".toList] ++ g1 ++ g2 ++ g3 ++ g4 ++ g5 ++ g6, ?_, ?_⟩
    · rw [hlog6, hlog5, hlog4, hlog3, hlog2, hlog1]
      simp [display_string_log]
    · intro hm hq
      simp only [List.mem_append, List.mem_singleton] at hm
      rcases hm with (((((hm | hm) | hm) | hm) | hm) | hm) | hm
      · exact absurd hm (by decide)
      · exact absurd (hm1 hm).1 (by decide)
      · left
        rw [hb2, (hm2 hm).2 hq, store_nil]; rfl
      · exact absurd (hm3 hm).1 (by decide)
      · right; left
        rw [hb4, (hm4 hm).2 hq, store_nil]; rfl
      · exact absurd (hm5 hm).1 (by decide)
      · right; right
        rw [hb6, (hm6 hm).2 hq, store_nil]; rfl

theorem radar_info_report_found {σ : Type} (k : LcdConsts) (pid st ver : List Nat)
    (w : World σ) :
    (radar_info_report k pid st ver w).2 = true ↔
      pid.getD 0 0 ≠ 0 ∧ st.getD 0 0 ≠ 0 ∧ ver.getD 0 0 ≠ 0 := by
  unfold radar_info_report
  split
  · rename_i h; simpa using h
  · rename_i h; simpa using h

/-- C3: when the three reads of `radar_info` leave `product_id`,
`sensor_type` and `version` (8 bytes each) with the contents `pid`, `st` and
`ver`, `radar_info` returns TRUE if and only if the first byte of each of
the three is not zero; a `sensor_type` of eight zero bytes gives FALSE. -/
theorem radar_info_found_iff {σ : Type} (env : Env σ) (k : LcdConsts) (fuel sensor : Nat)
    (w : World σ) (pid st ver : List Nat)
    (hread : (radar_info_read env k fuel sensor w).map Prod.snd = some (pid, st, ver)) :
    ∃ w' found, radar_info env k fuel sensor w = some (w', found) ∧
      pid.length = 8 ∧ st.length = 8 ∧ ver.length = 8 ∧
      (found = true ↔ pid.getD 0 0 ≠ 0 ∧ st.getD 0 0 ≠ 0 ∧ ver.getD 0 0 ≠ 0) ∧
      (st = List.replicate 8 0 → found = false) := by
  simp only [Option.map_eq_some', Prod.exists, exists_eq_right] at hread
  obtain ⟨w1, h⟩ := hread
  obtain ⟨hp, hs, hv, _⟩ := radar_info_read_some env k fuel sensor w w1 pid st ver h
  have hf := radar_info_report_found k pid st ver w1
  refine ⟨(radar_info_report k pid st ver w1).1, (radar_info_report k pid st ver w1).2,
    by simp [radar_info, h], hp, hs, hv, hf, ?_⟩
  intro hz
  have h0 := getD_zero_of_eq_replicate hz
  cases hb : (radar_info_report k pid st ver w1).2
  · rfl
  · exact absurd h0 (hf.mp hb).2.1

theorem radar_info_found_iff_witness :
    (∃ w' found, radar_info (sonarEnv 50 0 0) nxtLcd 3 0 (restWorld 0 0) = some (w', found) ∧
      [76, 69, 71, 79, 0, 0, 0, 0].length = 8 ∧ [83, 111, 110, 97, 114, 0, 0, 0].length = 8 ∧
      [86, 49, 46, 48, 0, 0, 0, 0].length = 8 ∧
      (found = true ↔ [76, 69, 71, 79, 0, 0, 0, 0].getD 0 0 ≠ 0 ∧
        [83, 111, 110, 97, 114, 0, 0, 0].getD 0 0 ≠ 0 ∧
        [86, 49, 46, 48, 0, 0, 0, 0].getD 0 0 ≠ 0) ∧
      ([83, 111, 110, 97, 114, 0, 0, 0] = List.replicate 8 0 → found = false)) ∧
    (radar_info (sonarEnv 50 0 0) nxtLcd 3 0 (restWorld 0 0)).map Prod.snd = some true ∧
    bytes_str [76, 69, 71, 79, 0, 0, 0, 0] = "LEGO".toList ∧
    bytes_str [83, 111, 110, 97, 114, 0, 0, 0] = "Sonar".toList ∧
    bytes_str [86, 49, 46, 48, 0, 0, 0, 0] = "V1.0".toList :=
  ⟨radar_info_found_iff (sonarEnv 50 0 0) nxtLcd 3 0 (restWorld 0 0)
      [76, 69, 71, 79, 0, 0, 0, 0] [83, 111, 110, 97, 114, 0, 0, 0]
      [86, 49, 46, 48, 0, 0, 0, 0] (by rfl),
    by rfl, by decide, by decide, by decide⟩

/-! ## Failed transactions -/

/-- C4, as the code has it: for a transport that stores nothing into the
buffer of a transaction it reports as failed, a failed read (shown by the
line "< " of `radar_txn`) makes `radar_info` return FALSE and makes
`radar_test` display "n/a" and call `sound_freq_async` not at all. -/
theorem failed_read_falls_back {σ : Type} (env : Env σ) (k : LcdConsts) (fuel sensor : Nat)
    (w : World σ) (hq : quiet_on_failure env) :
    ((radar_info_read env k fuel sensor w).map
        (fun r => read_error_shown w.display r.1.display) = some true →
      (radar_info env k fuel sensor w).map Prod.snd = some false) ∧
    ((radar_test_read env k fuel sensor w).map
        (fun r => read_error_shown w.display r.1.display) = some true →
      ∃ w1 w', radar_test_read env k fuel sensor w = some (w1, 0) ∧
        radar_test env k fuel sensor w = some w' ∧ w'.sound = w.sound ∧
        w'.display.log = w1.display.log ++ [">> ".toList, "n/a\n".toList]) := by
  constructor
  · intro h
    simp only [Option.map_eq_some', Prod.exists] at h
    obtain ⟨w1, pid, st, ver, hr, hm⟩ := h
    obtain ⟨_, _, _, _, _, g, hlog, hz⟩ := radar_info_read_some env k fuel sensor w w1 pid st ver hr
    simp only [read_error_shown, hlog, List.drop_left, decide_eq_true_eq] at hm
    have hz' := hz hm hq
    have hc : ¬ (pid.getD 0 0 ≠ 0 ∧ st.getD 0 0 ≠ 0 ∧ ver.getD 0 0 ≠ 0) := by
      rintro ⟨h1, h2, h3⟩
      rcases hz' with h0 | h0 | h0
      · exact h1 h0
      · exact h2 h0
      · exact h3 h0
    have hf := radar_info_report_found k pid st ver w1
    simp only [radar_info, hr, Option.some_bind, Option.map_some', Option.some.injEq]
    cases hb : (radar_info_report k pid st ver w1).2
    · rfl
    · exact absurd (hf.mp hb) hc
  · intro h
    simp only [Option.map_eq_some', Prod.exists] at h
    obtain ⟨w1, d, hr, hm⟩ := h
    obtain ⟨_, hs, _, _, g, hlog, hz⟩ := radar_test_read_some env k fuel sensor w w1 d hr
    simp only [read_error_shown, hlog, List.drop_left, decide_eq_true_eq] at hm
    have hd : d = 0 := hz hm hq
    subst hd
    have hc : ¬ ((0 : Nat) ≠ 0 ∧ 0 < 0xFF) := by simp
    refine ⟨w1, radar_test_report k 0 w1, hr, by simp [radar_test, hr], ?_, ?_⟩
    · rw [(radar_test_report_sentinel k 0 w1 hc).1, hs]
    · rw [(radar_test_report_sentinel k 0 w1 hc).2]

theorem sonarEnv_quiet (r0 werr rerr : Nat) : quiet_on_failure (sonarEnv r0 werr rerr) := by
  constructor
  · intro s sensor data size mode restart h
    cases mode
    · by_cases hw : werr = 0 <;> simp_all [sonarEnv]
    · by_cases hr : rerr = 0 <;> simp_all [sonarEnv]
  · intro s sensor h
    simp [sonarEnv] at h

theorem failed_read_falls_back_witness :
    quiet_on_failure (sonarEnv 50 0 5) ∧
    (radar_info (sonarEnv 50 0 5) nxtLcd 3 0 (restWorld 0 0)).map Prod.snd = some false ∧
    ∃ w1 w', radar_test_read (sonarEnv 50 0 5) nxtLcd 3 0 (restWorld 0 0) = some (w1, 0) ∧
      radar_test (sonarEnv 50 0 5) nxtLcd 3 0 (restWorld 0 0) = some w' ∧
      w'.sound = (restWorld 0 0).sound ∧
      w'.display.log = w1.display.log ++ [">> ".toList, "n/a\n".toList] :=
  ⟨sonarEnv_quiet 50 0 5,
    (failed_read_falls_back (sonarEnv 50 0 5) nxtLcd 3 0 (restWorld 0 0)
      (sonarEnv_quiet 50 0 5)).1 (by decide),
    (failed_read_falls_back (sonarEnv 50 0 5) nxtLcd 3 0 (restWorld 0 0)
      (sonarEnv_quiet 50 0 5)).2 (by decide)⟩

/-- C4 fails as stated: with a transport that refuses every register-select
write (submission error 2) while the reads still deliver the identification
strings and the distance 50, `radar_info` returns TRUE and `radar_test`
calls `sound_freq_async(6500, 100)`, although calls of the transport
failed. -/
theorem failed_write_not_detected :
    (radar_info (sonarEnv 50 2 0) nxtLcd 3 0 (restWorld 0 0)).map
        (fun r => (r.2, r.1.i2c.any (call_failed (sonarEnv 50 2 0)))) = some (true, true) ∧
    (radar_test (sonarEnv 50 2 0) nxtLcd 3 0 (restWorld 0x42 0)).map
        (fun w => (w.sound, w.i2c.any (call_failed (sonarEnv 50 2 0)))) =
      some ([(6500, 100)], true) := by
  constructor <;> rfl

/-! ## The transactions of the two protocols -/

theorem returns_bind {α β : Type} (f : Nat → Option α) (g : Nat → α → Option β)
    (hf : Returns f) (hg : ∀ a, Returns fun fuel => g fuel a) :
    Returns fun fuel => (f fuel).bind (g fuel) := by
  obtain ⟨n, a, ha⟩ := hf
  obtain ⟨m, b, hb⟩ := hg a
  refine ⟨n + m, b, fun fuel h => ?_⟩
  have hb' : g fuel a = some b := hb fuel (by omega)
  show (f fuel).bind (g fuel) = some b
  rw [ha fuel (by omega), Option.some_bind, hb']

theorem returns_some {α : Type} (a : α) : Returns fun _ : Nat => some a :=
  ⟨0, a, fun _ _ => rfl⟩

theorem radar_info_returns {σ : Type} (env : Env σ) (k : LcdConsts) (sensor : Nat)
    (hidle : ∀ s, ∃ n, busy_clears env sensor n s = true) (w : World σ) :
    Returns fun fuel => radar_info env k fuel sensor w := by
  unfold radar_info radar_info_read
  refine returns_bind _ _ ?_ fun _ => returns_some _
  refine returns_bind _ _ (radar_txn_total env k sensor hidle _ _ _ _ _) fun _ => ?_
  refine returns_bind _ _ (radar_txn_total env k sensor hidle _ _ _ _ _) fun _ => ?_
  refine returns_bind _ _ (radar_txn_total env k sensor hidle _ _ _ _ _) fun _ => ?_
  refine returns_bind _ _ (radar_txn_total env k sensor hidle _ _ _ _ _) fun _ => ?_
  refine returns_bind _ _ (radar_txn_total env k sensor hidle _ _ _ _ _) fun _ => ?_
  refine returns_bind _ _ (radar_txn_total env k sensor hidle _ _ _ _ _) fun _ => ?_
  exact returns_some _

theorem radar_test_returns {σ : Type} (env : Env σ) (k : LcdConsts) (sensor : Nat)
    (hidle : ∀ s, ∃ n, busy_clears env sensor n s = true) (w : World σ) :
    Returns fun fuel => radar_test env k fuel sensor w := by
  unfold radar_test radar_test_read
  refine returns_bind _ _ ?_ fun _ => returns_some _
  refine returns_bind _ _ (radar_txn_total env k sensor hidle _ _ _ _ _) fun _ => ?_
  refine returns_bind _ _ (radar_txn_total env k sensor hidle _ _ _ _ _) fun _ => ?_
  exact returns_some _

theorem radar_info_i2c {σ : Type} (k : LcdConsts) (pid st ver : List Nat) (w : World σ) :
    (radar_info_report k pid st ver w).1.i2c = w.i2c := by
  unfold radar_info_report
  split <;> rfl

theorem radar_test_i2c {σ : Type} (k : LcdConsts) (d : Nat) (w : World σ) :
    (radar_test_report k d w).i2c = w.i2c := by
  unfold radar_test_report
  split <;> rfl

/-- C7: with a bus that always becomes idle, `radar_info` returns and
submits exactly six transactions: for product id (register 0x08), sensor
type (0x10) and version (0x00) in this order, a 1-byte write of the register
address without restart and then an 8-byte read with restart into the
zeroed array; `radar_test` returns and submits exactly two, the 1-byte write
of the address 0x42 of R0 without restart and a 1-byte read with restart.
Each address written is the value of an enumerator of `radar_commands`. -/
theorem protocol_transactions {σ : Type} (env : Env σ) (k : LcdConsts) (sensor : Nat)
    (w : World σ) (hidle : ∀ s, ∃ n, busy_clears env sensor n s = true) :
    (∃ n r, ∀ fuel, n < fuel → radar_info env k fuel sensor w = some r) ∧
    (∀ fuel r, radar_info env k fuel sensor w = some r →
      submitted r.1.i2c = submitted w.i2c ++
        [(sensor, [0x08], 1, i2c_txn_mode.TXN_MODE_WRITE, false),
         (sensor, [0, 0, 0, 0, 0, 0, 0, 0], 8, i2c_txn_mode.TXN_MODE_READ, true),
         (sensor, [0x10], 1, i2c_txn_mode.TXN_MODE_WRITE, false),
         (sensor, [0, 0, 0, 0, 0, 0, 0, 0], 8, i2c_txn_mode.TXN_MODE_READ, true),
         (sensor, [0x00], 1, i2c_txn_mode.TXN_MODE_WRITE, false),
         (sensor, [0, 0, 0, 0, 0, 0, 0, 0], 8, i2c_txn_mode.TXN_MODE_READ, true)]) ∧
    (∃ n r, ∀ fuel, n < fuel → radar_test env k fuel sensor w = some r) ∧
    (∀ fuel r, radar_test env k fuel sensor w = some r →
      submitted r.i2c = submitted w.i2c ++
        [(sensor, [0x42], 1, i2c_txn_mode.TXN_MODE_WRITE, false),
         (sensor, [0], 1, i2c_txn_mode.TXN_MODE_READ, true)]) ∧
    radar_commands.RADAR_PRODUCT_ID.val = 0x08 ∧
    radar_commands.RADAR_SENSOR_TYPE.val = 0x10 ∧
    radar_commands.RADAR_VERSION.val = 0x00 ∧
    radar_commands.RADAR_R0.val = 0x42 ∧
    radar_commands.RADAR_PRODUCT_ID.block = RegisterBlock.identification ∧
    radar_commands.RADAR_SENSOR_TYPE.block = RegisterBlock.factory_calibration ∧
    radar_commands.RADAR_VERSION.block = RegisterBlock.identification ∧
    radar_commands.RADAR_R0.block = RegisterBlock.live_operation := by
  refine ⟨radar_info_returns env k sensor hidle w, ?_, radar_test_returns env k sensor hidle w,
    ?_, rfl, rfl, rfl, rfl, rfl, rfl, rfl, rfl⟩
  · intro fuel r h
    simp only [radar_info, Option.bind_eq_some, Option.some.injEq, Prod.exists] at h
    obtain ⟨w1, pid, st, ver, hr, rfl⟩ := h
    obtain ⟨_, _, _, _, hsub, _⟩ := radar_info_read_some env k fuel sensor w w1 pid st ver hr
    rw [radar_info_i2c, hsub]
    rfl
  · intro fuel r h
    simp only [radar_test, Option.bind_eq_some, Option.some.injEq, Prod.exists] at h
    obtain ⟨w1, d, hr, rfl⟩ := h
    obtain ⟨_, _, _, hsub, _⟩ := radar_test_read_some env k fuel sensor w w1 d hr
    rw [radar_test_i2c, hsub]
    rfl

theorem sonarEnv_idle (r0 werr rerr sensor : Nat) :
    ∀ s : Sonar, ∃ n, busy_clears (sonarEnv r0 werr rerr) sensor n s = true := by
  have key : ∀ (m : Nat) (s : Sonar), s.wait = m →
      busy_clears (sonarEnv r0 werr rerr) sensor m s = true := by
    intro m
    induction m with
    | zero =>
      intro s hs
      simp [busy_clears, sonarEnv, hs]
    | succ m ih =>
      intro s hs
      have hne : s.wait ≠ 0 := by omega
      have := ih { s with wait := s.wait - 1 } (by simp; omega)
      simpa [busy_clears, sonarEnv, hne] using this
  intro s
  exact ⟨s.wait, key s.wait s rfl⟩

theorem protocol_transactions_witness :
    (∀ s : Sonar, ∃ n, busy_clears (sonarEnv 50 0 0) 0 n s = true) ∧
    (∃ n r, ∀ fuel, n < fuel →
      radar_info (sonarEnv 50 0 0) nxtLcd fuel 0 (restWorld 0 0) = some r) ∧
    (∀ fuel r, radar_info (sonarEnv 50 0 0) nxtLcd fuel 0 (restWorld 0 0) = some r →
      submitted r.1.i2c = submitted (restWorld 0 0).i2c ++
        [(0, [0x08], 1, i2c_txn_mode.TXN_MODE_WRITE, false),
         (0, [0, 0, 0, 0, 0, 0, 0, 0], 8, i2c_txn_mode.TXN_MODE_READ, true),
         (0, [0x10], 1, i2c_txn_mode.TXN_MODE_WRITE, false),
         (0, [0, 0, 0, 0, 0, 0, 0, 0], 8, i2c_txn_mode.TXN_MODE_READ, true),
         (0, [0x00], 1, i2c_txn_mode.TXN_MODE_WRITE, false),
         (0, [0, 0, 0, 0, 0, 0, 0, 0], 8, i2c_txn_mode.TXN_MODE_READ, true)]) ∧
    (radar_info (sonarEnv 50 0 0) nxtLcd 3 0 (restWorld 0 0)).map
      (fun r => submitted r.1.i2c) = some
        [(0, [0x08], 1, i2c_txn_mode.TXN_MODE_WRITE, false),
         (0, [0, 0, 0, 0, 0, 0, 0, 0], 8, i2c_txn_mode.TXN_MODE_READ, true),
         (0, [0x10], 1, i2c_txn_mode.TXN_MODE_WRITE, false),
         (0, [0, 0, 0, 0, 0, 0, 0, 0], 8, i2c_txn_mode.TXN_MODE_READ, true),
         (0, [0x00], 1, i2c_txn_mode.TXN_MODE_WRITE, false),
         (0, [0, 0, 0, 0, 0, 0, 0, 0], 8, i2c_txn_mode.TXN_MODE_READ, true)] :=
  ⟨sonarEnv_idle 50 0 0 0,
    (protocol_transactions (sonarEnv 50 0 0) nxtLcd 0 (restWorld 0 0)
      (sonarEnv_idle 50 0 0 0)).1,
    (protocol_transactions (sonarEnv 50 0 0) nxtLcd 0 (restWorld 0 0)
      (sonarEnv_idle 50 0 0 0)).2.1,
    by rfl⟩

/-! ## The diagnostic dump -/

theorem spin_usb_of_clears {σ : Type} (env : Env σ) :
    ∀ (n fuel : Nat) (w : World σ), usb_clears env n w.hw = true → n < fuel →
      spin (usb_can_send_call env) fuel w = some { w with hw := usb_after env n w.hw } := by
  intro n
  induction n with
  | zero =>
    intro fuel w h hf
    obtain ⟨f, rfl⟩ : ∃ f, fuel = f + 1 := ⟨fuel - 1, by omega⟩
    simp only [usb_clears, Bool.not_eq_true'] at h
    simp [spin, usb_can_send_call, h, usb_after]
  | succ n ih =>
    intro fuel w h hf
    obtain ⟨f, rfl⟩ : ∃ f, fuel = f + 1 := ⟨fuel - 1, by omega⟩
    simp only [usb_clears, Bool.and_eq_true] at h
    have h2 := ih f { w with hw := (env.usb_can_send w.hw).2 } h.2 (by omega)
    simp only [spin, usb_can_send_call, h.1, if_true]
    rw [h2]
    simp [usb_after]

theorem u32_of_bytes_u32_bytes (n : Nat) (h : n < 2 ^ 32) : u32_of_bytes (u32_bytes n) = n := by
  simp only [u32_of_bytes, u32_bytes, List.getD_cons_zero, List.getD_cons_succ]
  omega

theorem u32_bytes_lt (v : Nat) : ∀ b ∈ u32_bytes v, b < 256 := by
  intro b hb
  simp only [u32_bytes, List.mem_cons, List.mem_singleton, List.not_mem_nil, or_false] at hb
  rcases hb with rfl | rfl | rfl | rfl <;> exact Nat.mod_lt _ (by decide)

theorem u32_bytes_small (n : Nat) (h : n ≤ 1024) :
    u32_bytes n = [n % 256, n / 256, 0, 0] := by
  have e1 : n / 256 % 256 = n / 256 := by omega
  have e2 : n / 65536 % 256 = 0 := by omega
  have e3 : n / 16777216 % 256 = 0 := by omega
  simp only [u32_bytes, e1, e2, e3]

/-- C6: for a capture of `n ≤ 1024` bytes in the 1024-byte buffer `dump`,
and a host link on which `usb_can_send` returns false after `n1` true polls
following the first send and after `n2` following the second,
`radar_send_dump` returns and makes exactly two calls of `usb_send`: first
the 4 bytes of `offset`, which are `n % 256`, `n / 256`, 0, 0, each below
256 and with the base-256 value `n`, then the first `n` bytes of `dump`;
`offset` and `dump` are unchanged. -/
theorem radar_send_dump_sends {σ : Type} (env : Env σ) (k : LcdConsts) (fuel : Nat)
    (w : World σ) (n n1 n2 : Nat)
    (hoff : w.offset = n ∧ n ≤ 1024) (hdump : w.dump.length = 1024)
    (h1 : usb_clears env n1 (env.usb_send w.hw (u32_bytes n) 4) = true)
    (h2 : usb_clears env n2 (env.usb_send
      (usb_after env n1 (env.usb_send w.hw (u32_bytes n) 4)) (w.dump.take n) n) = true)
    (hfuel : n1 < fuel ∧ n2 < fuel) :
    ∃ w', radar_send_dump env k fuel w = some w' ∧
      w'.usb = w.usb ++ [(u32_bytes n, 4), (w.dump.take n, n)] ∧
      (u32_bytes n).length = 4 ∧ u32_of_bytes (u32_bytes n) = n ∧
      (w.dump.take n).length = n ∧
      w'.offset = w.offset ∧ w'.dump = w.dump ∧
      w'.usb = w.usb ++ [([n % 256, n / 256, 0, 0], 4), (w.dump.take n, n)] ∧
      (∀ b ∈ [n % 256, n / 256, 0, 0], b < 256) ∧
      n % 256 + 256 * (n / 256) + 65536 * 0 + 16777216 * 0 = n ∧
      (∀ b ∈ u32_bytes n, b < 256) := by
  obtain ⟨rfl, hn⟩ := hoff
  have htake : (u32_bytes w.offset).take 4 = u32_bytes w.offset := rfl
  have s1 := spin_usb_of_clears env n1 fuel
    (usb_send_call env (u32_bytes w.offset) 4
      { w with display := display_string k "dumping... ".toList w.display })
    (by simpa [usb_send_call, htake] using h1) hfuel.1
  have s2 := spin_usb_of_clears env n2 fuel
    (usb_send_call env w.dump w.offset
      { usb_send_call env (u32_bytes w.offset) 4
          { w with display := display_string k "dumping... ".toList w.display } with
        hw := usb_after env n1 (env.usb_send w.hw (u32_bytes w.offset) 4) })
    (by simpa [usb_send_call, htake] using h2) hfuel.2
  have hlen : (w.dump.take w.offset).length = w.offset := by
    rw [List.length_take]; omega
  have hlit := u32_bytes_small w.offset hn
  have hbytes : ∀ b ∈ [w.offset % 256, w.offset / 256, 0, 0], b < 256 := by
    rw [← hlit]; exact u32_bytes_lt w.offset
  have hval : w.offset % 256 + 256 * (w.offset / 256) + 65536 * 0 + 16777216 * 0 =
      w.offset := by omega
  simp only [radar_send_dump]
  rw [s1]
  simp only [usb_send_call, htake] at s2 ⊢
  rw [s2]
  exact ⟨_, rfl, by simp, rfl, u32_of_bytes_u32_bytes _ (by omega), hlen, rfl, rfl,
    by simp [hlit], hbytes, hval, u32_bytes_lt w.offset⟩

theorem radar_send_dump_sends_witness :
    ((restWorld 0 300).offset = 300 ∧ 300 ≤ 1024) ∧ (restWorld 0 300).dump.length = 1024 ∧
    (∃ w', radar_send_dump (sonarEnv 50 0 0) nxtLcd 2 (restWorld 0 300) = some w' ∧
      w'.usb = (restWorld 0 300).usb ++
        [(u32_bytes 300, 4), ((restWorld 0 300).dump.take 300, 300)] ∧
      (u32_bytes 300).length = 4 ∧ u32_of_bytes (u32_bytes 300) = 300 ∧
      ((restWorld 0 300).dump.take 300).length = 300 ∧
      w'.offset = (restWorld 0 300).offset ∧ w'.dump = (restWorld 0 300).dump ∧
      w'.usb = (restWorld 0 300).usb ++
        [([300 % 256, 300 / 256, 0, 0], 4), ((restWorld 0 300).dump.take 300, 300)] ∧
      (∀ b ∈ [300 % 256, 300 / 256, 0, 0], b < 256) ∧
      300 % 256 + 256 * (300 / 256) + 65536 * 0 + 16777216 * 0 = 300 ∧
      (∀ b ∈ u32_bytes 300, b < 256)) ∧
    u32_bytes 300 = [44, 1, 0, 0] :=
  ⟨by decide, List.length_replicate 1024 7,
    radar_send_dump_sends (sonarEnv 50 0 0) nxtLcd 2 (restWorld 0 300) 300 1 1
      (by decide) (List.length_replicate 1024 7) (by decide) (by decide) (by decide),
    by decide⟩

end Nxos
